import Mathlib

/-!
Shallow embedding of the sans-I/O SOCKS protocol engine (repository
`sethmlarson/socks`).  The protocol engine itself (modules `socksio.utils`,
`socksio.socks4`, `socksio.socks5`) is not present in the repository
snapshot; only its test-suite (`tests/test_socks4.py`, `tests/test_socks5.py`)
and an example are.  Every definition below is therefore modelled from the
specification, with the behavior pinned by the repository's tests taking
precedence over specification prose wherever the two disagree (the tests are
the only authoritative code present).  Bytes are `Nat` values below 256,
byte strings are `List Nat`, and a raised `ProtocolError` is an
`Except.error` carrying the message.
-/

namespace Socks

/-- Result of evaluating an `Except` for failure: `true` exactly when the
Python call would have raised. -/
def isErr {ε α : Type} : Except ε α → Bool
  | .error _ => true
  | .ok _ => false

instance {ε α : Type} [DecidableEq ε] [DecidableEq α] : DecidableEq (Except ε α) :=
  fun a b =>
    match a, b with
    | .error e, .error f =>
        if h : e = f then isTrue (congrArg Except.error h)
        else isFalse fun k => h (Except.error.inj k)
    | .error _, .ok _ => isFalse fun k => Except.noConfusion k
    | .ok _, .error _ => isFalse fun k => Except.noConfusion k
    | .ok x, .ok y =>
        if h : x = y then isTrue (congrArg Except.ok h)
        else isFalse fun k => h (Except.ok.inj k)

/-- Modelled from the spec: encode a 16-bit port as two big-endian bytes
(`struct.pack` with format `!H`); the precondition `port < 65536` is the
caller's per §4.2. -/
def portBytes (p : Nat) : List Nat := [p / 256 % 256, p % 256]

/-- Modelled from the spec: the bytes of an address string (`str.encode`);
equals UTF-8 on the ASCII addresses the engine handles. -/
def strBytes (s : String) : List Nat := s.toList.map Char.toNat

/-- Modelled from the spec: decode raw bytes into a text string
(`bytes.decode`) for the ASCII addresses the engine handles. -/
def bytesToString (bs : List Nat) : String := String.mk (bs.map Char.ofNat)

/-- Split a character list at every occurrence of a separator character,
like Python's `str.split(sep)`. -/
def splitOnChar (sep : Char) : List Char → List (List Char)
  | [] => [[]]
  | c :: rest =>
      if c = sep then [] :: splitOnChar sep rest
      else
        match splitOnChar sep rest with
        | [] => [[c]]
        | g :: gs => (c :: g) :: gs

/-- Split a character list at every non-overlapping occurrence of `"::"`,
scanning left to right, like Python's `str.split("::")`. -/
def splitOnDC : List Char → List (List Char)
  | [] => [[]]
  | ':' :: ':' :: rest => [] :: splitOnDC rest
  | c :: rest =>
      match splitOnDC rest with
      | [] => [[c]]
      | g :: gs => (c :: g) :: gs

/-- Modelled from the spec: parse one dotted-decimal octet, a non-empty
string of at most 3 digits whose value is at most 255. -/
def parseOctet (cs : List Char) : Option Nat :=
  if cs ≠ [] ∧ cs.length ≤ 3 ∧ cs.all Char.isDigit then
    let n := cs.foldl (fun acc c => acc * 10 + (c.toNat - 48)) 0
    if n ≤ 255 then some n else none
  else none

/-- Modelled from the spec: an address string is IPv4 when it is parsable
as four dotted octets; the result is the 4 packed bytes (`pack_ipv4`). -/
def parseIPv4 (s : String) : Option (List Nat) :=
  match splitOnChar '.' s.toList with
  | [a, b, c, d] =>
      match parseOctet a, parseOctet b, parseOctet c, parseOctet d with
      | some oa, some ob, some oc, some od => some [oa, ob, oc, od]
      | _, _, _, _ => none
  | _ => none

/-- Value of one hexadecimal digit character, lowercase or uppercase. -/
def hexDigitVal (c : Char) : Option Nat :=
  if c.isDigit then some (c.toNat - 48)
  else if 'a' ≤ c ∧ c ≤ 'f' then some (c.toNat - 87)
  else if 'A' ≤ c ∧ c ≤ 'F' then some (c.toNat - 55)
  else none

/-- Modelled from the spec: parse one IPv6 hextet, 1 to 4 hex digits. -/
def parseHextet (cs : List Char) : Option Nat :=
  if cs.length = 0 ∨ cs.length > 4 then none
  else cs.foldlM (fun acc c => do pure (acc * 16 + (← hexDigitVal c))) 0

/-- Apply a fallible function to every element, failing when any
application fails. -/
def traverseOption {α β : Type} (f : α → Option β) : List α → Option (List β)
  | [] => some []
  | a :: as =>
      match f a, traverseOption f as with
      | some b, some bs => some (b :: bs)
      | _, _ => none

/-- Two big-endian bytes for each 16-bit hextet. -/
def hextetsToBytes : List Nat → List Nat
  | [] => []
  | h :: hs => h / 256 % 256 :: h % 256 :: hextetsToBytes hs

/-- Colon-separated groups of a character list; the empty list has no
groups, mirroring Python's `l.split(":") if l else []`. -/
def colonGroups (cs : List Char) : List (List Char) :=
  if cs = [] then [] else splitOnChar ':' cs

/-- Modelled from the spec: an address string is IPv6 when it is parsable
as colon-delimited hextets, with at most one `::` zero-run abbreviation;
the result is the 16 packed bytes (`pack_ipv6`). -/
def parseIPv6 (s : String) : Option (List Nat) :=
  match splitOnDC s.toList with
  | [one] =>
      let parts := splitOnChar ':' one
      if parts.length = 8 then
        match traverseOption parseHextet parts with
        | some hs => some (hextetsToBytes hs)
        | none => none
      else none
  | [l, r] =>
      let lp := colonGroups l
      let rp := colonGroups r
      if lp.length + rp.length < 8 then
        match traverseOption parseHextet lp, traverseOption parseHextet rp with
        | some lh, some rh =>
            some (hextetsToBytes
              (lh ++ List.replicate (8 - lp.length - rp.length) 0 ++ rh))
        | _, _ => none
      else none
  | _ => none

/-- The three address classifications of `socksio.utils.AddressType`. -/
inductive AddressType : Type
  | ipv4
  | ipv6
  | dn
deriving DecidableEq, Repr

/-- Modelled from the spec: classify an address string, trying IPv4 first,
IPv6 second, and falling through to domain name (§9 design note). -/
def get_address_type (s : String) : AddressType :=
  if (parseIPv4 s).isSome then .ipv4
  else if (parseIPv6 s).isSome then .ipv6
  else .dn

/-- Modelled from the spec: `unpack_ipv4`, 4 bytes to the canonical dotted
decimal string. -/
def unpack_ipv4 (bs : List Nat) : String :=
  String.intercalate "." (bs.map toString)

/-- Group 16 address bytes back into 8 big-endian hextets. -/
def bytesToHextets : List Nat → List Nat
  | a :: b :: rest => (a * 256 + b) :: bytesToHextets rest
  | _ => []

/-- Lowercase hexadecimal digit character for a value below 16. -/
def hexChar (n : Nat) : Char :=
  if n < 10 then Char.ofNat (48 + n) else Char.ofNat (87 + n)

/-- Lowercase hexadecimal string of a 16-bit hextet, no leading zeros. -/
def hextetHex (n : Nat) : String :=
  let d0 := n % 16
  let n1 := n / 16
  let d1 := n1 % 16
  let n2 := n1 / 16
  let d2 := n2 % 16
  let d3 := n2 / 16 % 16
  if d3 ≠ 0 then String.mk [hexChar d3, hexChar d2, hexChar d1, hexChar d0]
  else if d2 ≠ 0 then String.mk [hexChar d2, hexChar d1, hexChar d0]
  else if d1 ≠ 0 then String.mk [hexChar d1, hexChar d0]
  else String.mk [hexChar d0]

/-- First longest run of consecutive zero hextets: `(start, length)`. -/
def bestZeroRun (hs : List Nat) : Nat × Nat :=
  let r := hs.foldl
    (fun (st : Nat × Nat × Nat × Nat) h =>
      let i := st.1
      let curLen := st.2.1
      let bestStart := st.2.2.1
      let bestLen := st.2.2.2
      let curLen' := if h = 0 then curLen + 1 else 0
      if curLen' > bestLen then (i + 1, curLen', i + 1 - curLen', curLen')
      else (i + 1, curLen', bestStart, bestLen))
    (0, 0, 0, 0)
  (r.2.2.1, r.2.2.2)

/-- Modelled from the spec: `unpack_ipv6`, 16 bytes to the canonical
shortest-form colon string, collapsing the longest run of two or more zero
hextets so that the loopback bytes render as "::1" (§4.1, §8 law 5). -/
def unpack_ipv6 (bs : List Nat) : String :=
  let hs := bytesToHextets bs
  let (s, l) := bestZeroRun hs
  if l ≥ 2 then
    String.intercalate ":" ((hs.take s).map hextetHex) ++ "::" ++
      String.intercalate ":" ((hs.drop (s + l)).map hextetHex)
  else
    String.intercalate ":" (hs.map hextetHex)

/-! Enumerations: wire bytes per spec §3. -/

/-- SOCKS4 command codes. -/
inductive SOCKS4Command : Type
  | CONNECT
  | BIND
deriving DecidableEq, Repr

/-- Wire byte of a SOCKS4 command. -/
def SOCKS4Command.toByte : SOCKS4Command → Nat
  | .CONNECT => 0x01
  | .BIND => 0x02

/-- SOCKS4 reply codes. -/
inductive SOCKS4ReplyCode : Type
  | REQUEST_GRANTED
  | REQUEST_REJECTED_OR_FAILED
  | REQUEST_REJECTED_NO_IDENTD
  | REQUEST_REJECTED_USERID_MISMATCH
deriving DecidableEq, Repr

/-- Wire byte of a SOCKS4 reply code. -/
def SOCKS4ReplyCode.toByte : SOCKS4ReplyCode → Nat
  | .REQUEST_GRANTED => 0x5A
  | .REQUEST_REJECTED_OR_FAILED => 0x5B
  | .REQUEST_REJECTED_NO_IDENTD => 0x5C
  | .REQUEST_REJECTED_USERID_MISMATCH => 0x5D

/-- Decode a SOCKS4 reply code byte; `none` models the enum-conversion
failure turned into a `ProtocolError`. -/
def SOCKS4ReplyCode.ofByte : Nat → Option SOCKS4ReplyCode
  | 0x5A => some .REQUEST_GRANTED
  | 0x5B => some .REQUEST_REJECTED_OR_FAILED
  | 0x5C => some .REQUEST_REJECTED_NO_IDENTD
  | 0x5D => some .REQUEST_REJECTED_USERID_MISMATCH
  | _ => none

/-- SOCKS5 authentication method codes. -/
inductive SOCKS5AuthMethod : Type
  | NO_AUTH_REQUIRED
  | GSSAPI
  | USERNAME_PASSWORD
  | NO_ACCEPTABLE_METHODS
deriving DecidableEq, Repr

/-- Wire byte of a SOCKS5 authentication method. -/
def SOCKS5AuthMethod.toByte : SOCKS5AuthMethod → Nat
  | .NO_AUTH_REQUIRED => 0x00
  | .GSSAPI => 0x01
  | .USERNAME_PASSWORD => 0x02
  | .NO_ACCEPTABLE_METHODS => 0xFF

/-- Decode a SOCKS5 authentication method byte. -/
def SOCKS5AuthMethod.ofByte : Nat → Option SOCKS5AuthMethod
  | 0x00 => some .NO_AUTH_REQUIRED
  | 0x01 => some .GSSAPI
  | 0x02 => some .USERNAME_PASSWORD
  | 0xFF => some .NO_ACCEPTABLE_METHODS
  | _ => none

/-- SOCKS5 command codes. -/
inductive SOCKS5Command : Type
  | CONNECT
  | BIND
  | UDP_ASSOCIATE
deriving DecidableEq, Repr

/-- Wire byte of a SOCKS5 command. -/
def SOCKS5Command.toByte : SOCKS5Command → Nat
  | .CONNECT => 0x01
  | .BIND => 0x02
  | .UDP_ASSOCIATE => 0x03

/-- SOCKS5 address type codes. -/
inductive SOCKS5AType : Type
  | IPV4_ADDRESS
  | DOMAIN_NAME
  | IPV6_ADDRESS
deriving DecidableEq, Repr

/-- Wire byte of a SOCKS5 address type. -/
def SOCKS5AType.toByte : SOCKS5AType → Nat
  | .IPV4_ADDRESS => 0x01
  | .DOMAIN_NAME => 0x03
  | .IPV6_ADDRESS => 0x04

/-- Decode a SOCKS5 address type byte. -/
def SOCKS5AType.ofByte : Nat → Option SOCKS5AType
  | 0x01 => some .IPV4_ADDRESS
  | 0x03 => some .DOMAIN_NAME
  | 0x04 => some .IPV6_ADDRESS
  | _ => none

/-- Modelled from the spec: `SOCKS5AType.from_atype`, the total map from the
three address classifications to SOCKS5 address type codes (§4.1). -/
def SOCKS5AType.from_atype : AddressType → SOCKS5AType
  | .ipv4 => .IPV4_ADDRESS
  | .ipv6 => .IPV6_ADDRESS
  | .dn => .DOMAIN_NAME

/-- SOCKS5 reply codes. -/
inductive SOCKS5ReplyCode : Type
  | SUCCEEDED
  | GENERAL_SERVER_FAILURE
  | CONNECTION_NOT_ALLOWED
  | NETWORK_UNREACHABLE
  | HOST_UNREACHABLE
  | CONNECTION_REFUSED
  | TTL_EXPIRED
  | COMMAND_NOT_SUPPORTED
  | ADDRESS_TYPE_NOT_SUPPORTED
deriving DecidableEq, Repr

/-- Wire byte of a SOCKS5 reply code. -/
def SOCKS5ReplyCode.toByte : SOCKS5ReplyCode → Nat
  | .SUCCEEDED => 0x00
  | .GENERAL_SERVER_FAILURE => 0x01
  | .CONNECTION_NOT_ALLOWED => 0x02
  | .NETWORK_UNREACHABLE => 0x03
  | .HOST_UNREACHABLE => 0x04
  | .CONNECTION_REFUSED => 0x05
  | .TTL_EXPIRED => 0x06
  | .COMMAND_NOT_SUPPORTED => 0x07
  | .ADDRESS_TYPE_NOT_SUPPORTED => 0x08

/-- Decode a SOCKS5 reply code byte. -/
def SOCKS5ReplyCode.ofByte : Nat → Option SOCKS5ReplyCode
  | 0x00 => some .SUCCEEDED
  | 0x01 => some .GENERAL_SERVER_FAILURE
  | 0x02 => some .CONNECTION_NOT_ALLOWED
  | 0x03 => some .NETWORK_UNREACHABLE
  | 0x04 => some .HOST_UNREACHABLE
  | 0x05 => some .CONNECTION_REFUSED
  | 0x06 => some .TTL_EXPIRED
  | 0x07 => some .COMMAND_NOT_SUPPORTED
  | 0x08 => some .ADDRESS_TYPE_NOT_SUPPORTED
  | _ => none

/-! Events returned by the two receive paths (spec §3). -/

/-- Event returned after parsing the single SOCKS4 reply. -/
structure SOCKS4Reply : Type where
  reply_code : SOCKS4ReplyCode
  port : Nat
  addr : String
deriving DecidableEq, Repr

/-- Event returned after parsing the SOCKS5 method-selection reply. -/
structure SOCKS5AuthReply : Type where
  method : SOCKS5AuthMethod
deriving DecidableEq, Repr

/-- Event returned after parsing the username/password sub-negotiation
status reply. -/
structure SOCKS5UsernamePasswordAuthReply : Type where
  success : Bool
deriving DecidableEq, Repr

/-- Event returned after parsing a SOCKS5 request reply. -/
structure SOCKS5Reply : Type where
  reply_code : SOCKS5ReplyCode
  atype : SOCKS5AType
  addr : String
  port : Nat
deriving DecidableEq, Repr

/-- The tagged union of events a SOCKS5 `receive_data` can return. -/
inductive SOCKS5Event : Type
  | authReply (r : SOCKS5AuthReply)
  | usernamePasswordAuthReply (r : SOCKS5UsernamePasswordAuthReply)
  | reply (r : SOCKS5Reply)
deriving DecidableEq, Repr

/-! SOCKS4 connection (spec §4.2). -/

/-- The three-valued SOCKS4 connection state (spec §3). -/
inductive SOCKS4State : Type
  | initial
  | requestSent
  | replied
deriving DecidableEq, Repr

/-- Modelled from the spec: the SOCKS4/4a client connection object. -/
structure SOCKS4Connection : Type where
  user_id : List Nat
  allow_domain_names : Bool := false
  state : SOCKS4State := .initial
  send_buffer : List Nat := []
deriving DecidableEq, Repr

/-- Modelled from the spec: `SOCKS4Connection.request` (§4.2).  Stages
`0x04 | command | port big-endian | destination-ip | user_id | 0x00` for an
IPv4 address; for a domain with `allow_domain_names` the SOCKS4a sentinel
ip `0.0.0.1` is used and `addr-bytes | 0x00` is appended; a domain without
`allow_domain_names` or an IPv6 address raises `ProtocolError`.  Errors
leave the connection untouched. -/
def SOCKS4Connection.request (c : SOCKS4Connection) (command : SOCKS4Command)
    (addr : String) (port : Nat) : Except String Unit × SOCKS4Connection :=
  match get_address_type addr with
  | .ipv4 =>
      let ip := (parseIPv4 addr).getD []
      (.ok (),
       { c with
         send_buffer := c.send_buffer ++ [0x04, command.toByte] ++ portBytes port ++
           ip ++ c.user_id ++ [0x00]
         state := .requestSent })
  | .ipv6 => (.error "IPv6 addresses are not supported by SOCKS4", c)
  | .dn =>
      if c.allow_domain_names then
        (.ok (),
         { c with
           send_buffer := c.send_buffer ++ [0x04, command.toByte] ++ portBytes port ++
             [0x00, 0x00, 0x00, 0x01] ++ c.user_id ++ [0x00] ++ strBytes addr ++ [0x00]
           state := .requestSent })
      else (.error "Domain names are not supported without allow_domain_names", c)

/-- Modelled from the spec: `SOCKS4Connection.receive_data` (§4.2).
Accepts exactly 8 bytes `null | reply_code | port(2) | ip(4)`; rejects a
wrong length, a non-zero leading byte, or an undefined reply code with
`ProtocolError`, leaving the connection untouched; on success returns the
decoded `SOCKS4Reply` and sets the state to `replied`.  Decoding is not
gated on the connection state. -/
def SOCKS4Connection.receive_data (c : SOCKS4Connection) (data : List Nat) :
    Except String SOCKS4Reply × SOCKS4Connection :=
  if data.length ≠ 8 then (.error "Malformed reply", c)
  else if data.getD 0 0 ≠ 0x00 then (.error "Malformed reply", c)
  else
    match SOCKS4ReplyCode.ofByte (data.getD 1 0) with
    | none => (.error "Malformed reply", c)
    | some code =>
        (.ok { reply_code := code
               port := data.getD 2 0 * 256 + data.getD 3 0
               addr := unpack_ipv4 (data.drop 4) },
         { c with state := .replied })

/-- Modelled from the spec: `data_to_send` returns and clears the buffered
outbound bytes (§4.2). -/
def SOCKS4Connection.data_to_send (c : SOCKS4Connection) :
    List Nat × SOCKS4Connection :=
  (c.send_buffer, { c with send_buffer := [] })

/-! SOCKS5 connection (spec §4.3). -/

/-- The SOCKS5 connection states (spec §3). -/
inductive SOCKS5State : Type
  | CLIENT_INIT
  | CLIENT_AUTH_SENT
  | CLIENT_WAITING_FOR_USERNAME_PASSWORD
  | CLIENT_AUTH_USERNAME_PASSWORD_SENT
  | CLIENT_AUTHENTICATED
  | CLIENT_REQUEST_SENT
  | TUNNEL_READY
  | MUST_CLOSE
deriving DecidableEq, Repr

/-- Modelled from the spec: the SOCKS5 client connection object;
`auth_methods` retains the method list offered by `authenticate` (§9). -/
structure SOCKS5Connection : Type where
  state : SOCKS5State := .CLIENT_INIT
  send_buffer : List Nat := []
  auth_methods : List SOCKS5AuthMethod := []
deriving DecidableEq, Repr

/-- Modelled from the spec: `SOCKS5Connection.authenticate` (§4.3), legal
only in `CLIENT_INIT`.  Stages `0x05 | count | method bytes` in the given
order, records the offered methods, and moves to `CLIENT_AUTH_SENT`.
Illegal states raise `ProtocolError` and leave the connection untouched. -/
def SOCKS5Connection.authenticate (c : SOCKS5Connection)
    (methods : List SOCKS5AuthMethod) : Except String Unit × SOCKS5Connection :=
  if c.state ≠ .CLIENT_INIT then
    (.error "Connection has already started authentication", c)
  else
    (.ok (),
     { c with
       send_buffer := c.send_buffer ++ [0x05, methods.length % 256] ++
         methods.map SOCKS5AuthMethod.toByte
       auth_methods := methods
       state := .CLIENT_AUTH_SENT })

/-- Modelled from the spec: `SOCKS5Connection.authenticate_username_password`
(§4.3), legal only in `CLIENT_WAITING_FOR_USERNAME_PASSWORD`.  Stages
`0x01 | len(username) | username | len(password) | password` and moves to
`CLIENT_AUTH_USERNAME_PASSWORD_SENT`. -/
def SOCKS5Connection.authenticate_username_password (c : SOCKS5Connection)
    (username password : List Nat) : Except String Unit × SOCKS5Connection :=
  if c.state ≠ .CLIENT_WAITING_FOR_USERNAME_PASSWORD then
    (.error "Not currently waiting for username and password", c)
  else
    (.ok (),
     { c with
       send_buffer := c.send_buffer ++ [0x01, username.length % 256] ++ username ++
         [password.length % 256] ++ password
       state := .CLIENT_AUTH_USERNAME_PASSWORD_SENT })

/-- Modelled from the spec: `SOCKS5Connection.request` (§4.3), legal only
in `CLIENT_AUTHENTICATED`.  Stages
`0x05 | command | 0x00 | atype | address-payload | port big-endian` and
moves to `CLIENT_REQUEST_SENT`.  The address payload is the 4 packed bytes
for IPv4 and the 16 packed bytes for IPv6; for a domain name the source
appends the raw address bytes with NO length prefix, as pinned by
`test_socks5_request_domain_name` (15 bytes for "localhost") and flagged
as a deviation from RFC 1928 by spec §9 open question 1. -/
def SOCKS5Connection.request (c : SOCKS5Connection) (command : SOCKS5Command)
    (addr : String) (port : Nat) : Except String Unit × SOCKS5Connection :=
  if c.state ≠ .CLIENT_AUTHENTICATED then
    (.error "SOCKS5 connections must be authenticated before sending a request", c)
  else
    let atype := SOCKS5AType.from_atype (get_address_type addr)
    let payload : List Nat :=
      match get_address_type addr with
      | .ipv4 => (parseIPv4 addr).getD []
      | .ipv6 => (parseIPv6 addr).getD []
      | .dn => strBytes addr
    (.ok (),
     { c with
       send_buffer := c.send_buffer ++ [0x05, command.toByte, 0x00, atype.toByte] ++
         payload ++ portBytes port
       state := .CLIENT_REQUEST_SENT })

/-- Modelled from the spec: the `CLIENT_AUTH_SENT` branch of
`receive_data` (§4.3 dispatch table).  The frame is exactly
`0x05 | method`; a method the client did not offer is reported as
`NO_ACCEPTABLE_METHODS` with the state moving to `MUST_CLOSE`; an offered
`NO_AUTH_REQUIRED` moves to `CLIENT_AUTHENTICATED`; an offered
`USERNAME_PASSWORD` moves to `CLIENT_WAITING_FOR_USERNAME_PASSWORD`; every
other accepted method (GSSAPI, whose sub-negotiation is unsupported, or
`NO_ACCEPTABLE_METHODS`) moves to `MUST_CLOSE`. -/
def socks5ReceiveAuthReply (c : SOCKS5Connection) (data : List Nat) :
    Except String SOCKS5Event × SOCKS5Connection :=
  if data.length ≠ 2 then (.error "Malformed reply", c)
  else if data.getD 0 0 ≠ 0x05 then (.error "Malformed reply", c)
  else
    match SOCKS5AuthMethod.ofByte (data.getD 1 0) with
    | none => (.error "Malformed reply", c)
    | some method =>
        if method ∉ c.auth_methods then
          (.ok (.authReply { method := .NO_ACCEPTABLE_METHODS }),
           { c with state := .MUST_CLOSE })
        else if method = .NO_AUTH_REQUIRED then
          (.ok (.authReply { method := method }),
           { c with state := .CLIENT_AUTHENTICATED })
        else if method = .USERNAME_PASSWORD then
          (.ok (.authReply { method := method }),
           { c with state := .CLIENT_WAITING_FOR_USERNAME_PASSWORD })
        else
          (.ok (.authReply { method := method }),
           { c with state := .MUST_CLOSE })

/-- Modelled from the spec: the `CLIENT_AUTH_USERNAME_PASSWORD_SENT`
branch of `receive_data`.  The spec's state table (§4.3) claims a 2-byte
`ver | status` frame, but the spec's own scenario S5 and the repository's
tests (`test_socks5_auth_username_password_success` and `..._fail`) feed
the single status byte; the source therefore reads a 1-byte status frame,
and that is what is modelled: `success = (status == 0)`; status 0 moves to
`CLIENT_AUTHENTICATED`, anything else to `MUST_CLOSE`. -/
def socks5ReceiveUsernamePasswordAuthReply (c : SOCKS5Connection)
    (data : List Nat) : Except String SOCKS5Event × SOCKS5Connection :=
  if data.length ≠ 1 then (.error "Malformed reply", c)
  else
    let success := data.getD 0 0 == 0
    (.ok (.usernamePasswordAuthReply { success := success }),
     { c with state := if success then .CLIENT_AUTHENTICATED else .MUST_CLOSE })

/-- Modelled from the spec: the `CLIENT_REQUEST_SENT` branch of
`receive_data` (§4.3 parsing rules), with the domain-name case pinned by
the tests.  Checks: length at least 7, version byte `0x05`, a defined
reply code, a defined atype; exact length 10 for atype `0x01` and 22 for
atype `0x04`.  For atype `0x03` the source takes every byte between the
4-byte header and the trailing 2-byte port as the address with NO leading
length byte, as pinned by `test_socks5_reply_success` and
`test_socks5_reply_error` feeding `05 .. 00 03 | "localhost" | port` (15
bytes) and expecting addr "localhost".  A `SUCCEEDED` code moves to
`TUNNEL_READY`, every other code to `MUST_CLOSE`. -/
def socks5ReceiveReply (c : SOCKS5Connection) (data : List Nat) :
    Except String SOCKS5Event × SOCKS5Connection :=
  if data.length < 7 then (.error "Malformed reply", c)
  else if data.getD 0 0 ≠ 0x05 then (.error "Malformed reply", c)
  else
    match SOCKS5ReplyCode.ofByte (data.getD 1 0) with
    | none => (.error "Malformed reply", c)
    | some code =>
        match SOCKS5AType.ofByte (data.getD 3 0) with
        | none => (.error "Malformed reply", c)
        | some atype =>
            let addr? : Option String :=
              match atype with
              | .IPV4_ADDRESS =>
                  if data.length = 10 then some (unpack_ipv4 ((data.drop 4).take 4))
                  else none
              | .IPV6_ADDRESS =>
                  if data.length = 22 then some (unpack_ipv6 ((data.drop 4).take 16))
                  else none
              | .DOMAIN_NAME =>
                  some (bytesToString ((data.drop 4).take (data.length - 6)))
            match addr? with
            | none => (.error "Malformed reply", c)
            | some addr =>
                (.ok (.reply
                   { reply_code := code
                     atype := atype
                     addr := addr
                     port := data.getD (data.length - 2) 0 * 256 +
                       data.getD (data.length - 1) 0 }),
                 { c with
                   state := if code = .SUCCEEDED then .TUNNEL_READY else .MUST_CLOSE })

/-- Modelled from the spec: `SOCKS5Connection.receive_data`, the state
dispatcher of §4.3; any state not expecting data raises `ProtocolError`
and leaves the connection untouched. -/
def SOCKS5Connection.receive_data (c : SOCKS5Connection) (data : List Nat) :
    Except String SOCKS5Event × SOCKS5Connection :=
  match c.state with
  | .CLIENT_AUTH_SENT => socks5ReceiveAuthReply c data
  | .CLIENT_AUTH_USERNAME_PASSWORD_SENT => socks5ReceiveUsernamePasswordAuthReply c data
  | .CLIENT_REQUEST_SENT => socks5ReceiveReply c data
  | _ => (.error "Not currently waiting for data", c)

/-- Modelled from the spec: `data_to_send` returns and clears the buffered
outbound bytes (§4.3). -/
def SOCKS5Connection.data_to_send (c : SOCKS5Connection) :
    List Nat × SOCKS5Connection :=
  (c.send_buffer, { c with send_buffer := [] })

/-! Concrete connections used by the test-suite. -/

/-- A fresh SOCKS4 connection with the test-suite's user id "socks". -/
def conn4 : SOCKS4Connection := { user_id := strBytes "socks" }

/-- The authenticated SOCKS5 connection built exactly as the test-suite's
`authenticated_conn` fixture: offer USERNAME_PASSWORD, drain, receive the
server's choice, send credentials, drain, receive the success status. -/
def authedConn : SOCKS5Connection :=
  let c0 : SOCKS5Connection := {}
  let c1 := (c0.authenticate [.USERNAME_PASSWORD]).2
  let c2 := c1.data_to_send.2
  let c3 := (c2.receive_data [0x05, 0x02]).2
  let c4 := (c3.authenticate_username_password (strBytes "username")
    (strBytes "password")).2
  let c5 := c4.data_to_send.2
  (c5.receive_data [0x00]).2

/-- The same connection one step earlier, waiting on the request reply. -/
def requestSentConn : SOCKS5Connection :=
  (authedConn.request .CONNECT "peer.example" 1080).2

/-- A SOCKS5 connection that has offered only USERNAME_PASSWORD. -/
def authSentConn : SOCKS5Connection :=
  (SOCKS5Connection.authenticate {} [.USERNAME_PASSWORD]).2

/-- A SOCKS5 connection that has offered all three real methods, as in
`test_socks5_auth_reply_accepted`. -/
def authSentConn3 : SOCKS5Connection :=
  (SOCKS5Connection.authenticate {}
    [.NO_AUTH_REQUIRED, .USERNAME_PASSWORD, .GSSAPI]).2

/-- A SOCKS5 connection that has sent username/password credentials. -/
def upSentConn : SOCKS5Connection :=
  (((authSentConn.receive_data [0x05, 0x02]).2).authenticate_username_password
    (strBytes "username") (strBytes "password")).2

/-- The 15-byte domain-name request reply fed by `test_socks5_reply_success`:
`05 00 00 03 | "localhost" | 04 38`, with no length byte after the atype. -/
def localhostReplyFrame : List Nat :=
  [0x05, 0x00, 0x00, 0x03] ++ strBytes "localhost" ++ [0x04, 0x38]

/-! Helper lemmas. -/

theorem traverseOption_length {α β : Type} {f : α → Option β} :
    ∀ {l : List α} {l' : List β}, traverseOption f l = some l' → l'.length = l.length := by
  intro l
  induction l with
  | nil =>
      intro l' h
      unfold traverseOption at h
      injection h with h
      subst h
      rfl
  | cons a as ih =>
      intro l' h
      unfold traverseOption at h
      split at h
      · injection h with h
        subst h
        simpa using ih ‹_›
      · exact absurd h (by simp)

theorem hextetsToBytes_length : ∀ hs : List Nat,
    (hextetsToBytes hs).length = 2 * hs.length := by
  intro hs
  induction hs with
  | nil => rfl
  | cons h t ih => simp [hextetsToBytes, ih]; omega

theorem parseIPv4_length {s : String} {ip : List Nat}
    (h : parseIPv4 s = some ip) : ip.length = 4 := by
  unfold parseIPv4 at h
  split at h
  · split at h
    · injection h with h
      subst h
      rfl
    · exact absurd h (by simp)
  · exact absurd h (by simp)

theorem parseIPv6_length {s : String} {ip : List Nat}
    (h : parseIPv6 s = some ip) : ip.length = 16 := by
  simp only [parseIPv6] at h
  split at h
  · split at h
    · split at h
      · injection h with h
        subst h
        rw [hextetsToBytes_length, traverseOption_length ‹_›]
        omega
      · exact absurd h (by simp)
    · exact absurd h (by simp)
  · split at h
    · split at h
      case _ lh rh hl hr =>
        injection h with h
        subst h
        rw [hextetsToBytes_length]
        have h1 := traverseOption_length hl
        have h2 := traverseOption_length hr
        simp only [List.length_append, List.length_replicate, h1, h2]
        omega
      case _ => exact absurd h (by simp)
    · exact absurd h (by simp)
  · exact absurd h (by simp)

/-! Claim theorems. -/

/-- Claim C8: for every SOCKS4 connection with a NUL-free user id `U`,
every command, IPv4 address `A` and 16-bit port `P`, `request` stages
exactly `0x04 | command | P big-endian | packed A | U | 0x00`; in
particular with user id "socks", CONNECT, "127.0.0.1", 8080 the staged
bytes are the 14 bytes `04 01 1F 90 7F 00 00 01 73 6F 63 6B 73 00`. -/
theorem socks4_request_frame :
    (∀ (uid : List Nat) (adn : Bool) (st : SOCKS4State) (buf : List Nat)
       (cmd : SOCKS4Command) (A : String) (P : Nat) (ip : List Nat),
       0 ∉ uid → parseIPv4 A = some ip → P < 65536 →
       SOCKS4Connection.request ⟨uid, adn, st, buf⟩ cmd A P =
         (.ok (), ⟨uid, adn, .requestSent,
           buf ++ [0x04, cmd.toByte] ++ [P / 256, P % 256] ++ ip ++ uid ++ [0x00]⟩)) ∧
    conn4.request .CONNECT "127.0.0.1" 8080 =
      (.ok (), { conn4 with
        state := .requestSent
        send_buffer := [0x04, 0x01, 0x1F, 0x90, 0x7F, 0x00, 0x00, 0x01,
          0x73, 0x6F, 0x63, 0x6B, 0x73, 0x00] }) ∧
    (conn4.request .CONNECT "127.0.0.1" 8080).2.send_buffer.length = 14 := by
  refine ⟨?_, by decide, by decide⟩
  intro uid adn st buf cmd A P ip hnul hv4 hp
  have hat : get_address_type A = .ipv4 := by
    unfold get_address_type
    rw [hv4]
    rfl
  have hdm : P / 256 % 256 = P / 256 := by omega
  simp [SOCKS4Connection.request, hat, hv4, portBytes, hdm]

theorem socks4_request_frame_witness :
    (0 : Nat) ∉ strBytes "socks" ∧ parseIPv4 "127.0.0.1" = some [127, 0, 0, 1] ∧
    8080 < 65536 ∧
    SOCKS4Connection.request ⟨strBytes "socks", false, .initial, []⟩ .CONNECT
        "127.0.0.1" 8080 =
      (.ok (), ⟨strBytes "socks", false, .requestSent,
        [] ++ [0x04, SOCKS4Command.CONNECT.toByte] ++ [8080 / 256, 8080 % 256] ++
          [127, 0, 0, 1] ++ strBytes "socks" ++ [0x00]⟩) :=
  ⟨by decide, by decide, by decide,
   socks4_request_frame.1 (strBytes "socks") false .initial [] .CONNECT
     "127.0.0.1" 8080 [127, 0, 0, 1] (by decide) (by decide) (by decide)⟩

/-- Claim C9: for every SOCKS4 connection — in any state, including a
fresh one, since decoding is not gated on state — `receive_data` on a
valid 8-byte frame `00 | code | port(2 big-endian) | ip(4)` with a defined
reply code returns the decoded `SOCKS4Reply` and sets the state to
replied. -/
theorem socks4_receive_valid_reply :
    ∀ (c : SOCKS4Connection) (data : List Nat) (code : SOCKS4ReplyCode),
      data.length = 8 → data.getD 0 0 = 0x00 →
      SOCKS4ReplyCode.ofByte (data.getD 1 0) = some code →
      c.receive_data data =
        (.ok { reply_code := code,
               port := data.getD 2 0 * 256 + data.getD 3 0,
               addr := unpack_ipv4 (data.drop 4) },
         { c with state := .replied }) := by
  intro c data code hlen h0 hcode
  rcases data with _ | ⟨b0, data⟩; · simp at hlen
  rcases data with _ | ⟨b1, data⟩; · simp at hlen
  rcases data with _ | ⟨b2, data⟩; · simp at hlen
  rcases data with _ | ⟨b3, data⟩; · simp at hlen
  rcases data with _ | ⟨b4, data⟩; · simp at hlen
  rcases data with _ | ⟨b5, data⟩; · simp at hlen
  rcases data with _ | ⟨b6, data⟩; · simp at hlen
  rcases data with _ | ⟨b7, data⟩; · simp at hlen
  rcases data with _ | ⟨b8, data⟩
  · simp only [List.getD, List.get?, Option.getD] at h0 hcode
    subst h0
    simp [SOCKS4Connection.receive_data, hcode]
  · simp at hlen

theorem socks4_receive_valid_reply_witness :
    ([0x00, 0x5A, 0x1F, 0x90, 0x7F, 0x00, 0x00, 0x01] : List Nat).length = 8 ∧
    SOCKS4ReplyCode.ofByte 0x5A = some .REQUEST_GRANTED ∧
    conn4.receive_data [0x00, 0x5A, 0x1F, 0x90, 0x7F, 0x00, 0x00, 0x01] =
      (.ok { reply_code := .REQUEST_GRANTED, port := 8080, addr := "127.0.0.1" },
       { conn4 with state := .replied }) := by
  refine ⟨by decide, by decide, ?_⟩
  have h := socks4_receive_valid_reply conn4
    [0x00, 0x5A, 0x1F, 0x90, 0x7F, 0x00, 0x00, 0x01] .REQUEST_GRANTED
    (by decide) (by decide) (by decide)
  rw [h]
  decide

/-- Claim C7: every SOCKS5 method call made in a state where the state
table does not allow it raises `ProtocolError` and leaves the connection —
its state and its send buffer — unchanged. -/
theorem socks5_state_gating :
    (∀ (c : SOCKS5Connection) (ms : List SOCKS5AuthMethod),
       c.state ≠ .CLIENT_INIT →
       isErr (c.authenticate ms).1 = true ∧ (c.authenticate ms).2 = c) ∧
    (∀ (c : SOCKS5Connection) (u p : List Nat),
       c.state ≠ .CLIENT_WAITING_FOR_USERNAME_PASSWORD →
       isErr (c.authenticate_username_password u p).1 = true ∧
         (c.authenticate_username_password u p).2 = c) ∧
    (∀ (c : SOCKS5Connection) (cmd : SOCKS5Command) (A : String) (P : Nat),
       c.state ≠ .CLIENT_AUTHENTICATED →
       isErr (c.request cmd A P).1 = true ∧ (c.request cmd A P).2 = c) ∧
    (∀ (c : SOCKS5Connection) (data : List Nat),
       c.state ≠ .CLIENT_AUTH_SENT →
       c.state ≠ .CLIENT_AUTH_USERNAME_PASSWORD_SENT →
       c.state ≠ .CLIENT_REQUEST_SENT →
       isErr (c.receive_data data).1 = true ∧ (c.receive_data data).2 = c) := by
  refine ⟨?_, ?_, ?_, ?_⟩
  · intro c ms h
    simp [SOCKS5Connection.authenticate, h, isErr]
  · intro c u p h
    simp [SOCKS5Connection.authenticate_username_password, h, isErr]
  · intro c cmd A P h
    simp [SOCKS5Connection.request, h, isErr]
  · intro c data h1 h2 h3
    obtain ⟨st, sb, am⟩ := c
    cases st <;> simp_all [SOCKS5Connection.receive_data, isErr]

theorem socks5_state_gating_witness :
    authedConn.state ≠ .CLIENT_INIT ∧
    (isErr (authedConn.authenticate [.USERNAME_PASSWORD]).1 = true ∧
      (authedConn.authenticate [.USERNAME_PASSWORD]).2 = authedConn) ∧
    ({} : SOCKS5Connection).state ≠ .CLIENT_WAITING_FOR_USERNAME_PASSWORD ∧
    (isErr (({} : SOCKS5Connection).authenticate_username_password
        (strBytes "username") (strBytes "password")).1 = true ∧
      (({} : SOCKS5Connection).authenticate_username_password
        (strBytes "username") (strBytes "password")).2 = {}) ∧
    ({} : SOCKS5Connection).state ≠ .CLIENT_AUTHENTICATED ∧
    (isErr (({} : SOCKS5Connection).request .CONNECT "127.0.0.1" 1080).1 = true ∧
      (({} : SOCKS5Connection).request .CONNECT "127.0.0.1" 1080).2 = {}) ∧
    ({} : SOCKS5Connection).state ≠ .CLIENT_AUTH_SENT ∧
    (isErr (({} : SOCKS5Connection).receive_data [0x05, 0x00]).1 = true ∧
      (({} : SOCKS5Connection).receive_data [0x05, 0x00]).2 = {}) :=
  ⟨by decide, socks5_state_gating.1 authedConn _ (by decide),
   by decide, socks5_state_gating.2.1 {} _ _ (by decide),
   by decide, socks5_state_gating.2.2.1 {} _ _ _ (by decide),
   by decide, socks5_state_gating.2.2.2 {} _ (by decide) (by decide) (by decide)⟩

/-- Claim C4: on malformed input `receive_data` raises `ProtocolError`
and the connection — its state and its send buffer — is exactly as it was
before the call; the test-suite's concrete malformed frames (short by one
byte, wrong version or leading byte, unknown reply code or method code)
are all rejected. -/
theorem receive_malformed_rejected :
    (∀ (c : SOCKS4Connection) (data : List Nat),
       isErr (c.receive_data data).1 = true → (c.receive_data data).2 = c) ∧
    (∀ (c : SOCKS5Connection) (data : List Nat),
       isErr (c.receive_data data).1 = true → (c.receive_data data).2 = c) ∧
    isErr (conn4.receive_data [0x00, 0x5A, 0x1F, 0x90, 0x7F, 0x00, 0x00]).1 = true ∧
    isErr (conn4.receive_data [0x0F, 0x5A, 0x1F, 0x90, 0x7F, 0x00, 0x00, 0x01]).1 = true ∧
    isErr (conn4.receive_data [0x00, 0xFF, 0x1F, 0x90, 0x7F, 0x00, 0x00, 0x01]).1 = true ∧
    isErr (requestSentConn.receive_data
      [0x00, 0x00, 0x00, 0x01, 0x7F, 0x00, 0x00, 0x01, 0x04, 0x38]).1 = true ∧
    isErr (requestSentConn.receive_data
      [0x05, 0x00, 0x00, 0x01, 0x7F, 0x00, 0x00, 0x01, 0x04]).1 = true ∧
    isErr (requestSentConn.receive_data
      [0x05, 0x00, 0x00, 0x01, 0x7F, 0x00, 0x00, 0x04, 0x38]).1 = true ∧
    isErr (authSentConn.receive_data [0x05]).1 = true ∧
    isErr (authSentConn.receive_data [0x05, 0x10]).1 = true := by
  refine ⟨?_, ?_, by decide, by decide, by decide, by decide, by decide,
    by decide, by decide, by decide⟩
  · intro c data h
    rcases hcd : c.receive_data data with ⟨r, c'⟩
    rw [hcd] at h
    unfold SOCKS4Connection.receive_data at hcd
    repeat' split at hcd
    all_goals
      injection hcd with h1 h2
      first
        | exact h2.symm
        | (rw [← h1] at h; simp [isErr] at h)
  · intro c data h
    rcases hcd : c.receive_data data with ⟨r, c'⟩
    rw [hcd] at h
    unfold SOCKS5Connection.receive_data socks5ReceiveAuthReply
      socks5ReceiveUsernamePasswordAuthReply socks5ReceiveReply at hcd
    repeat' split at hcd
    all_goals
      injection hcd with h1 h2
      first
        | exact h2.symm
        | (rw [← h1] at h; simp [isErr] at h)

theorem receive_malformed_rejected_witness :
    isErr (conn4.receive_data [0x00, 0x5A, 0x1F, 0x90, 0x7F, 0x00, 0x00]).1 = true ∧
    (conn4.receive_data [0x00, 0x5A, 0x1F, 0x90, 0x7F, 0x00, 0x00]).2 = conn4 ∧
    isErr (requestSentConn.receive_data
      [0x00, 0x00, 0x00, 0x01, 0x7F, 0x00, 0x00, 0x01, 0x04, 0x38]).1 = true ∧
    (requestSentConn.receive_data
      [0x00, 0x00, 0x00, 0x01, 0x7F, 0x00, 0x00, 0x01, 0x04, 0x38]).2 = requestSentConn :=
  ⟨by decide, receive_malformed_rejected.1 conn4 _ (by decide),
   by decide, receive_malformed_rejected.2.1 requestSentConn _ (by decide)⟩

/-- Claim C3 counterexample: in state CLIENT_AUTH_USERNAME_PASSWORD_SENT
the engine accepts the 1-byte frame `00` — which the claim's "expects
exactly a 2-byte frame" would reject as malformed — returning a
successful `SOCKS5UsernamePasswordAuthReply` and moving to
CLIENT_AUTHENTICATED, exactly as the test
`test_socks5_auth_username_password_success` pins. -/
theorem socks5_up_auth_accepts_one_byte :
    ([0x00] : List Nat).length ≠ 2 ∧
    upSentConn.state = .CLIENT_AUTH_USERNAME_PASSWORD_SENT ∧
    (upSentConn.receive_data [0x00]).1 =
      .ok (.usernamePasswordAuthReply { success := true }) ∧
    (upSentConn.receive_data [0x00]).2.state = .CLIENT_AUTHENTICATED := by
  decide

/-- Claim C3 (amended): in state CLIENT_AUTH_USERNAME_PASSWORD_SENT the
engine reads a single status byte (not a 2-byte `ver | status` frame) and
returns `SOCKS5UsernamePasswordAuthReply{success = (status == 0)}`; status
0 moves the state to CLIENT_AUTHENTICATED, any other status to
MUST_CLOSE. -/
theorem socks5_up_auth_status_byte :
    ∀ (c : SOCKS5Connection) (data : List Nat),
      c.state = .CLIENT_AUTH_USERNAME_PASSWORD_SENT → data.length = 1 →
      c.receive_data data =
        (.ok (.usernamePasswordAuthReply { success := data.getD 0 0 == 0 }),
         { c with state := if data.getD 0 0 == 0 then .CLIENT_AUTHENTICATED
                           else .MUST_CLOSE }) := by
  intro c data hst hlen
  obtain ⟨st, sb, am⟩ := c
  simp only at hst
  subst hst
  simp [SOCKS5Connection.receive_data, socks5ReceiveUsernamePasswordAuthReply, hlen]

theorem socks5_up_auth_status_byte_witness :
    upSentConn.state = .CLIENT_AUTH_USERNAME_PASSWORD_SENT ∧
    ([0x01] : List Nat).length = 1 ∧
    upSentConn.receive_data [0x01] =
      (.ok (.usernamePasswordAuthReply
        { success := ([0x01] : List Nat).getD 0 0 == 0 }),
       { upSentConn with
         state := if ([0x01] : List Nat).getD 0 0 == 0 then .CLIENT_AUTHENTICATED
                  else .MUST_CLOSE }) :=
  ⟨by decide, by decide,
   socks5_up_auth_status_byte upSentConn [0x01] (by decide) (by decide)⟩

/-- Claim C5: in CLIENT_AUTH_SENT, on the 2-byte frame `05 | method`: a
method not among the offered methods yields a SOCKS5AuthReply carrying
NO_ACCEPTABLE_METHODS and state MUST_CLOSE; an offered method is carried
in the event exactly; an offered NO_AUTH_REQUIRED moves the state to
CLIENT_AUTHENTICATED and an offered USERNAME_PASSWORD to
CLIENT_WAITING_FOR_USERNAME_PASSWORD. -/
theorem socks5_auth_method_dispatch :
    ∀ (c : SOCKS5Connection) (m : SOCKS5AuthMethod),
      c.state = .CLIENT_AUTH_SENT →
      (m ∉ c.auth_methods →
        c.receive_data [0x05, m.toByte] =
          (.ok (.authReply { method := .NO_ACCEPTABLE_METHODS }),
           { c with state := .MUST_CLOSE })) ∧
      (m ∈ c.auth_methods →
        (c.receive_data [0x05, m.toByte]).1 = .ok (.authReply { method := m }) ∧
        (m = .NO_AUTH_REQUIRED →
          (c.receive_data [0x05, m.toByte]).2.state = .CLIENT_AUTHENTICATED) ∧
        (m = .USERNAME_PASSWORD →
          (c.receive_data [0x05, m.toByte]).2.state =
            .CLIENT_WAITING_FOR_USERNAME_PASSWORD)) := by
  intro c m hst
  obtain ⟨st, sb, am⟩ := c
  simp only at hst
  subst hst
  have hob : SOCKS5AuthMethod.ofByte m.toByte = some m := by cases m <;> rfl
  constructor
  · intro hmem
    simp [SOCKS5Connection.receive_data, socks5ReceiveAuthReply, hob, hmem]
  · intro hmem
    refine ⟨?_, ?_, ?_⟩
    · cases m <;>
        simp_all [SOCKS5Connection.receive_data, socks5ReceiveAuthReply,
          SOCKS5AuthMethod.ofByte, SOCKS5AuthMethod.toByte]
    · intro hm
      subst hm
      simp_all [SOCKS5Connection.receive_data, socks5ReceiveAuthReply,
        SOCKS5AuthMethod.ofByte, SOCKS5AuthMethod.toByte]
    · intro hm
      subst hm
      simp_all [SOCKS5Connection.receive_data, socks5ReceiveAuthReply,
        SOCKS5AuthMethod.ofByte, SOCKS5AuthMethod.toByte]

theorem socks5_auth_method_dispatch_witness :
    authSentConn3.state = .CLIENT_AUTH_SENT ∧
    ((SOCKS5AuthMethod.USERNAME_PASSWORD ∉ authSentConn3.auth_methods →
        authSentConn3.receive_data [0x05, SOCKS5AuthMethod.USERNAME_PASSWORD.toByte] =
          (.ok (.authReply { method := .NO_ACCEPTABLE_METHODS }),
           { authSentConn3 with state := .MUST_CLOSE })) ∧
      (SOCKS5AuthMethod.USERNAME_PASSWORD ∈ authSentConn3.auth_methods →
        (authSentConn3.receive_data
          [0x05, SOCKS5AuthMethod.USERNAME_PASSWORD.toByte]).1 =
            .ok (.authReply { method := .USERNAME_PASSWORD }) ∧
        (SOCKS5AuthMethod.USERNAME_PASSWORD = .NO_AUTH_REQUIRED →
          (authSentConn3.receive_data
            [0x05, SOCKS5AuthMethod.USERNAME_PASSWORD.toByte]).2.state =
              .CLIENT_AUTHENTICATED) ∧
        (SOCKS5AuthMethod.USERNAME_PASSWORD = .USERNAME_PASSWORD →
          (authSentConn3.receive_data
            [0x05, SOCKS5AuthMethod.USERNAME_PASSWORD.toByte]).2.state =
              .CLIENT_WAITING_FOR_USERNAME_PASSWORD))) :=
  ⟨by decide, socks5_auth_method_dispatch authSentConn3 .USERNAME_PASSWORD (by decide)⟩

/-- Claim C2 counterexample: in CLIENT_REQUEST_SENT the engine accepts the
15-byte domain reply `05 00 00 03 | "localhost" | 04 38` and decodes the
addr "localhost", although reading the byte after the atype as a length L
(here 0x6C = 108, the letter 'l') would demand a total length of exactly
8 + 108 = 116 bytes and so reject this frame: the reply parser reads no
length byte.  This is the acceptance pinned by `test_socks5_reply_success`. -/
theorem socks5_domain_reply_reads_no_length :
    (requestSentConn.receive_data localhostReplyFrame).1 =
      .ok (.reply { reply_code := .SUCCEEDED
                    atype := .DOMAIN_NAME
                    addr := "localhost"
                    port := 1080 }) ∧
    localhostReplyFrame.length = 15 ∧
    localhostReplyFrame.getD 4 0 = 108 ∧
    localhostReplyFrame.length ≠ 8 + localhostReplyFrame.getD 4 0 := by
  decide

/-- Claim C2 (amended): in CLIENT_REQUEST_SENT a reply whose atype byte is
0x03 and that passes the version and reply-code checks is accepted at ANY
total length of at least 7, and the decoded addr of the returned
SOCKS5Reply is ALL the bytes between the 4-byte header and the trailing
2-byte port — the byte after the atype is not read as a length. -/
theorem socks5_domain_reply_takes_middle_bytes :
    ∀ (c : SOCKS5Connection) (data : List Nat) (code : SOCKS5ReplyCode),
      c.state = .CLIENT_REQUEST_SENT →
      7 ≤ data.length → data.getD 0 0 = 0x05 →
      SOCKS5ReplyCode.ofByte (data.getD 1 0) = some code →
      data.getD 3 0 = 0x03 →
      c.receive_data data =
        (.ok (.reply { reply_code := code
                       atype := .DOMAIN_NAME
                       addr := bytesToString ((data.drop 4).take (data.length - 6))
                       port := data.getD (data.length - 2) 0 * 256 +
                         data.getD (data.length - 1) 0 }),
         { c with state := if code = .SUCCEEDED then .TUNNEL_READY
                           else .MUST_CLOSE }) := by
  intro c data code hst h7 h0 hcode h3
  obtain ⟨st, sb, am⟩ := c
  simp only at hst
  subst hst
  have h7' : ¬ data.length < 7 := by omega
  have hA : SOCKS5AType.ofByte (data.getD 3 0) = some .DOMAIN_NAME := by
    rw [h3]
    decide
  simp only [List.getD_eq_getElem?_getD] at h0 hcode hA
  simp [SOCKS5Connection.receive_data, socks5ReceiveReply, h7', h0, hcode, hA]

theorem socks5_domain_reply_takes_middle_bytes_witness :
    requestSentConn.state = .CLIENT_REQUEST_SENT ∧
    7 ≤ localhostReplyFrame.length ∧
    localhostReplyFrame.getD 0 0 = 0x05 ∧
    SOCKS5ReplyCode.ofByte (localhostReplyFrame.getD 1 0) = some .SUCCEEDED ∧
    localhostReplyFrame.getD 3 0 = 0x03 ∧
    requestSentConn.receive_data localhostReplyFrame =
      (.ok (.reply { reply_code := .SUCCEEDED
                     atype := .DOMAIN_NAME
                     addr := bytesToString ((localhostReplyFrame.drop 4).take
                       (localhostReplyFrame.length - 6))
                     port := localhostReplyFrame.getD (localhostReplyFrame.length - 2) 0 * 256 +
                       localhostReplyFrame.getD (localhostReplyFrame.length - 1) 0 }),
       { requestSentConn with
         state := if SOCKS5ReplyCode.SUCCEEDED = .SUCCEEDED then .TUNNEL_READY
                  else .MUST_CLOSE }) :=
  ⟨by decide, by decide, by decide, by decide, by decide,
   socks5_domain_reply_takes_middle_bytes requestSentConn localhostReplyFrame
     .SUCCEEDED (by decide) (by decide) (by decide) (by decide) (by decide)⟩

/-- Claim C6: in CLIENT_REQUEST_SENT, every accepted request reply yields
a SOCKS5Reply carrying the frame's reply code, its atype, the decoded
address string and the big-endian port from the last two bytes; the state
becomes TUNNEL_READY when the code is SUCCEEDED and MUST_CLOSE for every
one of the other eight defined codes. -/
theorem socks5ReceiveReply_ok {c : SOCKS5Connection} {data : List Nat}
    {ev : SOCKS5Event} {c' : SOCKS5Connection}
    (h : socks5ReceiveReply c data = (.ok ev, c')) :
    ∃ r : SOCKS5Reply, ev = .reply r ∧
      SOCKS5ReplyCode.ofByte (data.getD 1 0) = some r.reply_code ∧
      SOCKS5AType.ofByte (data.getD 3 0) = some r.atype ∧
      r.port = data.getD (data.length - 2) 0 * 256 +
        data.getD (data.length - 1) 0 ∧
      r.addr = (match r.atype with
        | .IPV4_ADDRESS => unpack_ipv4 ((data.drop 4).take 4)
        | .IPV6_ADDRESS => unpack_ipv6 ((data.drop 4).take 16)
        | .DOMAIN_NAME => bytesToString ((data.drop 4).take (data.length - 6))) ∧
      (r.reply_code = .SUCCEEDED → c'.state = .TUNNEL_READY) ∧
      (r.reply_code ≠ .SUCCEEDED → c'.state = .MUST_CLOSE) := by
  unfold socks5ReceiveReply at h
  repeat' split at h
  all_goals first
    | (exfalso; revert h; simp; done)
    | (simp only [Prod.mk.injEq, Except.ok.injEq] at h
       obtain ⟨h1, h2⟩ := h
       subst h1
       subst h2
       refine ⟨_, rfl, ‹_›, ‹_›, rfl, rfl, ?_, ?_⟩ <;>
         intro hx <;>
         first | rfl | exact absurd hx ‹_› | exact absurd ‹_› hx)

theorem socks5_reply_code_dispatch :
    ∀ (c : SOCKS5Connection) (data : List Nat) (ev : SOCKS5Event)
      (c' : SOCKS5Connection),
      c.state = .CLIENT_REQUEST_SENT →
      c.receive_data data = (.ok ev, c') →
      ∃ r : SOCKS5Reply, ev = .reply r ∧
        SOCKS5ReplyCode.ofByte (data.getD 1 0) = some r.reply_code ∧
        SOCKS5AType.ofByte (data.getD 3 0) = some r.atype ∧
        r.port = data.getD (data.length - 2) 0 * 256 +
          data.getD (data.length - 1) 0 ∧
        r.addr = (match r.atype with
          | .IPV4_ADDRESS => unpack_ipv4 ((data.drop 4).take 4)
          | .IPV6_ADDRESS => unpack_ipv6 ((data.drop 4).take 16)
          | .DOMAIN_NAME => bytesToString ((data.drop 4).take (data.length - 6))) ∧
        (r.reply_code = .SUCCEEDED → c'.state = .TUNNEL_READY) ∧
        (r.reply_code ≠ .SUCCEEDED → c'.state = .MUST_CLOSE) := by
  intro c data ev c' hst h
  have hdisp : c.receive_data data = socks5ReceiveReply c data := by
    unfold SOCKS5Connection.receive_data
    rw [hst]
  rw [hdisp] at h
  exact socks5ReceiveReply_ok h

theorem socks5_reply_code_dispatch_witness :
    requestSentConn.state = .CLIENT_REQUEST_SENT ∧
    requestSentConn.receive_data
        [0x05, 0x01, 0x00, 0x01, 0x7F, 0x00, 0x00, 0x01, 0x04, 0x38] =
      (.ok (.reply { reply_code := .GENERAL_SERVER_FAILURE
                     atype := .IPV4_ADDRESS
                     addr := "127.0.0.1"
                     port := 1080 }),
       { requestSentConn with state := .MUST_CLOSE }) ∧
    (∃ r : SOCKS5Reply,
      SOCKS5Event.reply { reply_code := .GENERAL_SERVER_FAILURE
                          atype := .IPV4_ADDRESS
                          addr := "127.0.0.1"
                          port := 1080 } = .reply r ∧
      SOCKS5ReplyCode.ofByte
          (([0x05, 0x01, 0x00, 0x01, 0x7F, 0x00, 0x00, 0x01, 0x04, 0x38] :
            List Nat).getD 1 0) = some r.reply_code ∧
      SOCKS5AType.ofByte
          (([0x05, 0x01, 0x00, 0x01, 0x7F, 0x00, 0x00, 0x01, 0x04, 0x38] :
            List Nat).getD 3 0) = some r.atype ∧
      r.port = 1080 ∧
      (r.reply_code = .SUCCEEDED →
        ({ requestSentConn with state := SOCKS5State.MUST_CLOSE }).state =
          .TUNNEL_READY) ∧
      (r.reply_code ≠ .SUCCEEDED →
        ({ requestSentConn with state := SOCKS5State.MUST_CLOSE }).state =
          .MUST_CLOSE)) := by
  refine ⟨by decide, by decide, ?_⟩
  have h := socks5_reply_code_dispatch requestSentConn
    [0x05, 0x01, 0x00, 0x01, 0x7F, 0x00, 0x00, 0x01, 0x04, 0x38]
    (.reply { reply_code := .GENERAL_SERVER_FAILURE
              atype := .IPV4_ADDRESS
              addr := "127.0.0.1"
              port := 1080 })
    { requestSentConn with state := SOCKS5State.MUST_CLOSE }
    (by decide) (by decide)
  obtain ⟨r, h1, h2, h3, h4, h5, h6, h7⟩ := h
  refine ⟨r, h1, h2, h3, ?_, h6, h7⟩
  rw [h4]
  decide

/-- Claim C10: for every authenticated SOCKS5 connection, `request` with
an IPv4 address stages exactly the 10-byte frame
`05 | command | 00 | 01 | 4 packed bytes | port big-endian`, and with an
IPv6 address exactly the 22-byte frame
`05 | command | 00 | 04 | 16 packed bytes | port big-endian`; stripping
the fixed 4-byte prefix leaves exactly the atype payload followed by the
big-endian port. -/
theorem socks5_request_ip_frames :
    (∀ (c : SOCKS5Connection) (cmd : SOCKS5Command) (A : String) (P : Nat)
       (ip : List Nat),
       c.state = .CLIENT_AUTHENTICATED → parseIPv4 A = some ip → P < 65536 →
       c.request cmd A P =
         (.ok (), { c with
           state := .CLIENT_REQUEST_SENT
           send_buffer := c.send_buffer ++ [0x05, cmd.toByte, 0x00, 0x01] ++
             ip ++ [P / 256, P % 256] }) ∧
       ip.length = 4) ∧
    (∀ (c : SOCKS5Connection) (cmd : SOCKS5Command) (A : String) (P : Nat)
       (ip : List Nat),
       c.state = .CLIENT_AUTHENTICATED → parseIPv4 A = none →
       parseIPv6 A = some ip → P < 65536 →
       c.request cmd A P =
         (.ok (), { c with
           state := .CLIENT_REQUEST_SENT
           send_buffer := c.send_buffer ++ [0x05, cmd.toByte, 0x00, 0x04] ++
             ip ++ [P / 256, P % 256] }) ∧
       ip.length = 16) ∧
    (authedConn.request .CONNECT "127.0.0.1" 1080).2.send_buffer =
      [0x05, 0x01, 0x00, 0x01, 0x7F, 0x00, 0x00, 0x01, 0x04, 0x38] ∧
    (authedConn.request .CONNECT "127.0.0.1" 1080).2.send_buffer.drop 4 =
      [0x7F, 0x00, 0x00, 0x01] ++ [0x04, 0x38] ∧
    (authedConn.request .BIND "0:0:0:0:0:0:0:1" 1080).2.send_buffer =
      [0x05, 0x02, 0x00, 0x04, 0, 0, 0, 0, 0, 0, 0, 0, 0, 0, 0, 0, 0, 0, 0, 1,
        0x04, 0x38] ∧
    (authedConn.request .BIND "0:0:0:0:0:0:0:1" 1080).2.send_buffer.length = 22 := by
  refine ⟨?_, ?_, by decide, by decide, by decide, by decide⟩
  · intro c cmd A P ip hst hv4 hp
    obtain ⟨st, sb, am⟩ := c
    simp only at hst
    subst hst
    have hat : get_address_type A = .ipv4 := by
      unfold get_address_type
      rw [hv4]
      rfl
    have hdm : P / 256 % 256 = P / 256 := by omega
    refine ⟨?_, parseIPv4_length hv4⟩
    simp [SOCKS5Connection.request, hat, hv4, portBytes, hdm,
      SOCKS5AType.from_atype, SOCKS5AType.toByte]
  · intro c cmd A P ip hst hv4 hv6 hp
    obtain ⟨st, sb, am⟩ := c
    simp only at hst
    subst hst
    have hat : get_address_type A = .ipv6 := by
      unfold get_address_type
      rw [hv4, hv6]
      rfl
    have hdm : P / 256 % 256 = P / 256 := by omega
    refine ⟨?_, parseIPv6_length hv6⟩
    simp [SOCKS5Connection.request, hat, hv6, portBytes, hdm,
      SOCKS5AType.from_atype, SOCKS5AType.toByte]

theorem socks5_request_ip_frames_witness :
    authedConn.state = .CLIENT_AUTHENTICATED ∧
    parseIPv4 "127.0.0.1" = some [0x7F, 0x00, 0x00, 0x01] ∧
    1080 < 65536 ∧
    (authedConn.request .CONNECT "127.0.0.1" 1080 =
      (.ok (), { authedConn with
        state := .CLIENT_REQUEST_SENT
        send_buffer := authedConn.send_buffer ++
          [0x05, SOCKS5Command.CONNECT.toByte, 0x00, 0x01] ++
          [0x7F, 0x00, 0x00, 0x01] ++ [1080 / 256, 1080 % 256] }) ∧
      ([0x7F, 0x00, 0x00, 0x01] : List Nat).length = 4) ∧
    parseIPv4 "0:0:0:0:0:0:0:1" = none ∧
    parseIPv6 "0:0:0:0:0:0:0:1" =
      some [0, 0, 0, 0, 0, 0, 0, 0, 0, 0, 0, 0, 0, 0, 0, 1] ∧
    (authedConn.request .BIND "0:0:0:0:0:0:0:1" 1080 =
      (.ok (), { authedConn with
        state := .CLIENT_REQUEST_SENT
        send_buffer := authedConn.send_buffer ++
          [0x05, SOCKS5Command.BIND.toByte, 0x00, 0x04] ++
          [0, 0, 0, 0, 0, 0, 0, 0, 0, 0, 0, 0, 0, 0, 0, 1] ++
          [1080 / 256, 1080 % 256] }) ∧
      ([0, 0, 0, 0, 0, 0, 0, 0, 0, 0, 0, 0, 0, 0, 0, 1] : List Nat).length = 16) :=
  ⟨by decide, by decide, by decide,
   socks5_request_ip_frames.1 authedConn .CONNECT "127.0.0.1" 1080
     [0x7F, 0x00, 0x00, 0x01] (by decide) (by decide) (by decide),
   by decide, by decide,
   socks5_request_ip_frames.2.1 authedConn .BIND "0:0:0:0:0:0:0:1" 1080
     [0, 0, 0, 0, 0, 0, 0, 0, 0, 0, 0, 0, 0, 0, 0, 1]
     (by decide) (by decide) (by decide) (by decide)⟩

/-- Claim C1: evaluation of the engine at the failing input — the
authenticated connection of the test fixture, `request(CONNECT,
"localhost", 1080)`.  The staged frame is the 15 bytes
`05 01 00 03 | "localhost" | 04 38`: the byte after the atype is 0x6C
(the letter l), not a length byte 0x09, and the total length is 15, not
the 16 = 7 + 9 the claim's length-prefixed layout requires.  This is the
behavior the repository's own `test_socks5_request_domain_name` asserts
and that spec §9 open question 1 flags as a deviation from RFC 1928. -/
theorem socks5_domain_request_at_failing_input :
    (authedConn.request .CONNECT "localhost" 1080).1 = .ok () ∧
    (authedConn.request .CONNECT "localhost" 1080).2.send_buffer =
      [0x05, 0x01, 0x00, 0x03] ++ strBytes "localhost" ++ [0x04, 0x38] ∧
    (authedConn.request .CONNECT "localhost" 1080).2.send_buffer.length = 15 ∧
    (authedConn.request .CONNECT "localhost" 1080).2.send_buffer.getD 4 0 = 0x6C := by
  decide

end Socks
